import Mathlib

/-!
Shallow embedding of the Cisco network-analysis tool
(config parser, topology builder, static validator, Day-1 driver,
simulation engine) together with theorems settling the frozen claims.

Machine integers are modelled as `Int`/`Nat`; Python dictionaries as
association lists preserving insertion order; fallible code returns
`Except`/`Option`.
-/

namespace NetSim

/-! ## String helpers mirroring the Python primitives used by the source -/

/-- ASCII lower-casing of one character (Python `str.lower` on the ASCII
texts handled here). -/
def lowerChar (c : Char) : Char :=
  if c.toNat ≥ 65 ∧ c.toNat ≤ 90 then Char.ofNat (c.toNat + 32) else c

/-- Python `s.lower()`. -/
def lowerString (s : String) : String :=
  String.mk (s.data.map lowerChar)

/-- Python `s.strip()`. -/
def trimPy (s : String) : String :=
  String.mk (((s.data.dropWhile Char.isWhitespace).reverse.dropWhile Char.isWhitespace).reverse)

/-- Python `s.startswith(p)`. -/
def startsWithL (s p : String) : Bool :=
  p.data.isPrefixOf s.data

/-- Python `s.split(sep)` for a one-character separator (keeps empty
pieces). -/
def splitCharAux (sep : Char) : List Char → List Char → List String
  | [], acc => [String.mk acc.reverse]
  | c :: cs, acc =>
    if c = sep then String.mk acc.reverse :: splitCharAux sep cs []
    else splitCharAux sep cs (c :: acc)

def splitOnCharStr (sep : Char) (s : String) : List String :=
  splitCharAux sep s.data []

/-- Split at every character satisfying `q` (keeps empty pieces). -/
def splitPredAux (q : Char → Bool) : List Char → List Char → List String
  | [], acc => [String.mk acc.reverse]
  | c :: cs, acc =>
    if q c then String.mk acc.reverse :: splitPredAux q cs []
    else splitPredAux q cs (c :: acc)

/-- Python `str.split()` with no separator: split on whitespace runs,
dropping empty pieces. -/
def splitWsPy (s : String) : List String :=
  (splitPredAux Char.isWhitespace s.data []).filter (fun t => t ≠ "")

/-- `l.lower().startswith(p)` for an ASCII literal `p`. -/
def startsLower (l p : String) : Bool :=
  startsWithL (lowerString l) p

/-- Python `lst[idx] if len(lst) > idx else default` (the parser's `_safe_get`
with `default=None`). -/
def safeGet (l : List String) (i : Nat) : Option String :=
  l[i]?

/-- Value of a nonempty all-digit character list. -/
def digitsVal : List Char → Option Nat
  | [] => none
  | cs => if cs.all Char.isDigit then
      some (cs.foldl (fun acc c => acc * 10 + (c.toNat - '0'.toNat)) 0)
    else none

/-- Python `int(s)` on a whitespace-free token: optional sign followed by
digits; `none` models the `ValueError`. -/
def toIntPy (s : String) : Option Int :=
  match s.data with
  | [] => none
  | c :: cs =>
    if c = '-' then (digitsVal cs).map (fun n => -(n : Int))
    else if c = '+' then (digitsVal cs).map (fun n => (n : Int))
    else (digitsVal (c :: cs)).map (fun n => (n : Int))

/-- Python `int(x)` where `x` may be `None` (a `TypeError`, also modelled
as `none`). -/
def toIntPyOpt : Option String → Option Int
  | none => none
  | some s => toIntPy s

/-- Python `s.isdigit()` for ASCII digit strings. -/
def isDigitStr (s : String) : Bool :=
  s ≠ "" && s.data.all Char.isDigit

/-- Python `str.splitlines()`: split at `\n`, `\r\n` or `\r`, without a
trailing empty line. -/
def splitLinesAux : List Char → List Char → List String
  | [], [] => []
  | [], acc => [String.mk acc.reverse]
  | '\r' :: '\n' :: rest, acc => String.mk acc.reverse :: splitLinesAux rest []
  | '\n' :: rest, acc => String.mk acc.reverse :: splitLinesAux rest []
  | '\r' :: rest, acc => String.mk acc.reverse :: splitLinesAux rest []
  | c :: rest, acc => splitLinesAux rest (c :: acc)

def splitLinesPy (s : String) : List String :=
  splitLinesAux s.data []

/-- Case-insensitive literal match consuming the literal, as in a regex
with `re.I`. -/
def dropLitCI : List Char → List Char → Option (List Char)
  | [], rest => some rest
  | _ :: _, [] => none
  | p :: ps, c :: cs => if lowerChar p = lowerChar c then dropLitCI ps cs else none

/-- `\s+`: one or more whitespace characters, greedy. -/
def takeWs1 : List Char → Option (List Char)
  | c :: cs =>
    if c.isWhitespace then
      some (cs.dropWhile Char.isWhitespace)
    else none
  | [] => none

/-- `\d+`: one or more digits, greedy; returns the digits and the rest. -/
def takeDigits1 (cs : List Char) : Option (List Char × List Char) :=
  let ds := cs.takeWhile Char.isDigit
  if ds = [] then none else some (ds, cs.drop ds.length)

/-- `\d+\.\d+\.\d+\.\d+`: a dotted quad of digit runs, returning the
matched text and the rest. -/
def takeQuad (cs : List Char) : Option (String × List Char) := do
  let (d1, r1) ← takeDigits1 cs
  match r1 with
  | '.' :: r1b => do
    let (d2, r2) ← takeDigits1 r1b
    match r2 with
    | '.' :: r2b => do
      let (d3, r3) ← takeDigits1 r2b
      match r3 with
      | '.' :: r3b => do
        let (d4, r4) ← takeDigits1 r3b
        pure (String.mk (d1 ++ '.' :: d2 ++ '.' :: d3 ++ '.' :: d4), r4)
      | _ => none
    | _ => none
  | _ => none

/-- The parser's interface-address regex
`re.match(r"ip address\s+(\d+\.\d+\.\d+\.\d+)\s+(\d+\.\d+\.\d+\.\d+)", l, re.I)`,
returning the two captured groups. -/
def matchIpAddressPy (l : String) : Option (String × String) := do
  let r1 ← dropLitCI "ip address".data l.data
  let r2 ← takeWs1 r1
  let (q1, r3) ← takeQuad r2
  let r4 ← takeWs1 r3
  let (q2, _) ← takeQuad r4
  pure (q1, q2)

/-- Is `pat` a contiguous sublist of `l`? -/
def listInfix (pat : List Char) : List Char → Bool
  | [] => pat.isPrefixOf ([] : List Char)
  | c :: cs => pat.isPrefixOf (c :: cs) || listInfix pat cs

/-- Substring test (Python `sub in s`). -/
def strContains (s sub : String) : Bool :=
  listInfix sub.data s.data

/-! ## Config parser (`cisco_parser.py`) data model -/

structure Interface where
  name : String
  ip_address : Option String := none
  subnet_mask : Option String := none
  description : String := ""
  bandwidth_kbps : Int := 10000
  mtu : Int := 1500
  duplex : String := "auto"
  speed : String := "auto"
  status : String := "up"
  switchport_mode : Option String := none
  access_vlan : Option Int := none
  native_vlan : Option Int := none
  deriving Repr, DecidableEq

structure OspfNetwork where
  ip : String
  wildcard : String
  area : String
  deriving Repr, DecidableEq

structure OspfConfig where
  enabled : Bool := false
  router_id : Option String := none
  networks : List OspfNetwork := []
  passive_ints : List String := []
  reference_bandwidth : Option Int := none
  maximum_paths : Int := 1
  deriving Repr, DecidableEq

structure BgpNeighbor where
  ip : String
  remote_as : String
  deriving Repr, DecidableEq

structure BgpConfig where
  enabled : Bool := false
  as_number : Option Int := none
  router_id : Option String := none
  neighbors : List BgpNeighbor := []
  networks : List String := []
  deriving Repr, DecidableEq

structure Vlan where
  id : Nat
  name : String
  state : String
  deriving Repr, DecidableEq

structure ParsedConfig where
  hostname : Option String := none
  device_type : String := "router"
  interfaces : List Interface := []
  vlans : List Vlan := []
  ospf : OspfConfig := {}
  bgp : BgpConfig := {}
  version : Option String := none
  gateway_of_last_resort : Option String := none
  deriving Repr, DecidableEq

/-- The parser's `interface_types` table, in insertion order. -/
def interfaceTypes : List (String × String) :=
  [("gigabitethernet", "GigabitEthernet"),
   ("fastethernet", "FastEthernet"),
   ("ethernet", "Ethernet"),
   ("serial", "Serial"),
   ("loopback", "Loopback"),
   ("vlan", "VLAN"),
   ("tunnel", "Tunnel"),
   ("portchannel", "Port-Channel")]

/-- Python `s.replace(old, new, 1)`: replace the first occurrence of
`pat` (the empty pattern matches at the start, as in Python). -/
def replaceOnceAux (pat rep : List Char) : List Char → List Char
  | [] => if pat.isPrefixOf ([] : List Char) then rep else []
  | c :: cs =>
    if pat.isPrefixOf (c :: cs) then rep ++ (c :: cs).drop pat.length
    else c :: replaceOnceAux pat rep cs

/-- `CiscoConfigParser._normalize_interface_name`: trim, find the first
family whose key is a case-insensitive prefix of the name, and replace the
first occurrence of the text before the first `/` (Python
`name.replace(name.split("/")[0], full, 1)`). -/
def normalizeInterfaceName (name : String) : String :=
  let name := trimPy name
  match interfaceTypes.find? (fun p => startsWithL (lowerString name) p.1) with
  | some p => String.mk (replaceOnceAux (name.data.takeWhile (fun c => c ≠ '/')) p.2.data name.data)
  | none => name

/-- `CiscoConfigParser._default_bandwidth`. -/
def defaultBandwidth (iface_name : String) : Int :=
  let name := lowerString iface_name
  if strContains name "gigabitethernet" then 1000000
  else if strContains name "fastethernet" then 100000
  else if strContains name "serial" then 1544
  else if strContains name "loopback" then 8000000
  else 10000

/-- Parser state: the record under construction plus the two mode flags.
`interfaces_rev` holds the interface list most-recent-first; the Python
`curr_iface` pointer is its head (an interface, once opened, is never
closed by this parser). -/
structure PState where
  hostname : Option String := none
  interfaces_rev : List Interface := []
  vlans : List Vlan := []
  ospf : OspfConfig := {}
  bgp : BgpConfig := {}
  version : Option String := none
  gateway_of_last_resort : Option String := none
  in_ospf : Bool := false
  in_bgp : Bool := false
  deriving Repr, DecidableEq

/-- Update the currently-open interface (the head of `interfaces_rev`). -/
def updCurr (st : PState) (f : Interface → Interface) : PState :=
  match st.interfaces_rev with
  | [] => st
  | i :: rest => { st with interfaces_rev := f i :: rest }

/-- The interface-parameter directives (`description`, `bandwidth`, `mtu`,
`shutdown`, `no shutdown`), applied in source order; none of them ends the
line's processing. -/
def applyIfaceParams (st : PState) (l : String) : PState :=
  let st := if startsLower l "description " then
      updCurr st (fun i => { i with description := trimPy (l.drop 12) }) else st
  let st := if startsLower l "bandwidth " then
      match toIntPyOpt (safeGet (splitWsPy l) 1) with
      | some v => updCurr st (fun i => { i with bandwidth_kbps := v })
      | none => st
    else st
  let st := if startsLower l "mtu " then
      match toIntPyOpt (safeGet (splitWsPy l) 1) with
      | some v => updCurr st (fun i => { i with mtu := v })
      | none => st
    else st
  let st := if lowerString l = "shutdown" then
      updCurr st (fun i => { i with status := "down" }) else st
  let st := if lowerString l = "no shutdown" then
      updCurr st (fun i => { i with status := "up" }) else st
  st

/-- Directives recognized inside an open OSPF block (`router-id`,
`network … area …`, `auto-cost reference-bandwidth`); the `network` entry
stores `parts[3]` — the literal `area` token — in its `area` field,
exactly as the source does. -/
def applyOspfBlock (st : PState) (l : String) : PState :=
  let st := if startsLower l "router-id " then
      { st with ospf := { st.ospf with router_id := safeGet (splitWsPy l) 1 } } else st
  let st := if startsLower l "network " then
      let parts := splitWsPy l
      if parts.length ≥ 5 ∧ lowerString (parts.getD 3 "") = "area" then
        { st with ospf := { st.ospf with networks := st.ospf.networks ++
            [{ ip := parts.getD 1 "", wildcard := parts.getD 2 "", area := parts.getD 3 "" }] } }
      else st
    else st
  let st := if startsLower l "auto-cost reference-bandwidth " then
      match toIntPyOpt (safeGet (splitWsPy l) 2) with
      | some v => { st with ospf := { st.ospf with reference_bandwidth := some v } }
      | none => st
    else st
  st

/-- The BGP-block `neighbor` directive.  The source guards
`len(parts) >= 4` but then reads `parts[4]`; on the well-formed four-token
line `neighbor A.B.C.D remote-as <asn>` this raises `IndexError`, modelled
as `Except.error`. -/
def applyBgpBlock (st : PState) (l : String) : Except String PState :=
  if startsLower l "neighbor " then
    let parts := splitWsPy l
    if parts.length ≥ 4 ∧ lowerString (parts.getD 2 "") = "remote-as" then
      match parts[4]? with
      | some ras =>
        Except.ok { st with bgp := { st.bgp with neighbors := st.bgp.neighbors ++
          [{ ip := parts.getD 1 "", remote_as := ras }] } }
      | none => Except.error "IndexError: list index out of range"
    else Except.ok st
  else Except.ok st

/-- `vlan <id>` (appends a VLAN when the id token is all digits). -/
def applyVlanLine (st : PState) (l : String) : PState :=
  if startsLower l "vlan " then
    match safeGet (splitWsPy l) 1 with
    | some vid =>
      if isDigitStr vid then
        { st with vlans := st.vlans ++
          [{ id := (digitsVal vid.data).getD 0, name := "VLAN" ++ vid, state := "active" }] }
      else st
    | none => st
  else st

/-- `ip route 0.0.0.0 0.0.0.0 <next-hop>`. -/
def applyIpRoute (st : PState) (l : String) : PState :=
  if startsLower l "ip route 0.0.0.0 0.0.0.0" then
    { st with gateway_of_last_resort := safeGet (splitWsPy l) 4 }
  else st

/-- Open a new interface record with the parser's defaults. -/
def openInterface (st : PState) (l : String) : PState :=
  let iname := normalizeInterfaceName (trimPy (l.drop 10))
  { st with interfaces_rev :=
      { name := iname, bandwidth_kbps := defaultBandwidth iname } :: st.interfaces_rev }

/-- One iteration of the parser's line loop (`CiscoConfigParser.parse_config`).
Branches ending in `continue` are if/else arms; the rest fall through in
source order. -/
def processLine (st : PState) (line : String) : Except String PState :=
  let l := trimPy line
  if l = "" ∨ startsWithL l "!" then Except.ok st
  else if startsLower l "version " then
    Except.ok { st with version := safeGet (splitWsPy l) 1 }
  else if startsLower l "hostname " then
    Except.ok { st with hostname := safeGet (splitWsPy l) 1 }
  else if startsLower l "interface " then
    Except.ok (openInterface st l)
  else
    match (if st.interfaces_rev ≠ [] then matchIpAddressPy l else none) with
    | some (ip, mask) =>
      Except.ok (updCurr st (fun i => { i with ip_address := some ip, subnet_mask := some mask }))
    | none =>
      let st := if st.interfaces_rev ≠ [] then applyIfaceParams st l else st
      if startsLower l "router ospf" then
        Except.ok { st with ospf := { st.ospf with enabled := true }, in_ospf := true, in_bgp := false }
      else
        let st := if st.in_ospf then applyOspfBlock st l else st
        if startsLower l "router bgp" then
          let asn := (match toIntPyOpt (safeGet (splitWsPy l) 2) with
                      | some v => some v
                      | none => st.bgp.as_number)
          Except.ok { st with bgp := { st.bgp with enabled := true, as_number := asn },
                              in_bgp := true, in_ospf := false }
        else do
          let st ← if st.in_bgp then applyBgpBlock st l else Except.ok st
          let st := applyVlanLine st l
          Except.ok (applyIpRoute st l)

/-- Fold the line loop over the whole text. -/
def processLines (st : PState) : List String → Except String PState
  | [] => Except.ok st
  | line :: rest => do
    let st ← processLine st line
    processLines st rest

/-- Truthiness of `iface.get("switchport_mode")`. -/
def switchportTruthy : Option String → Bool
  | none => false
  | some s => s ≠ ""

/-- `CiscoConfigParser.parse_config` (the returned dict's
`"parsed_config"` entry).  The final device-type derivation mirrors the
source: any truthy switchport mode → `switch`, else OSPF/BGP enabled →
`router`, else `pc`. -/
def parseConfig (text : String) : Except String ParsedConfig := do
  let st ← processLines {} (splitLinesPy text)
  let interfaces := st.interfaces_rev.reverse
  let device_type :=
    if interfaces.any (fun i => switchportTruthy i.switchport_mode) then "switch"
    else if st.ospf.enabled || st.bgp.enabled then "router"
    else "pc"
  Except.ok { hostname := st.hostname, device_type := device_type,
              interfaces := interfaces, vlans := st.vlans,
              ospf := st.ospf, bgp := st.bgp, version := st.version,
              gateway_of_last_resort := st.gateway_of_last_resort }

/-! ## IPv4 arithmetic used by `topology_builder.py` (`ipaddress.ip_network`) -/

/-- One octet of a dotted quad as accepted by Python `ipaddress`
(1–3 digits, no leading zero, value ≤ 255). -/
def parseOctet (s : String) : Option Nat :=
  if s ≠ "" ∧ s.length ≤ 3 ∧ s.data.all Char.isDigit ∧ (s.length = 1 ∨ s.data.headD '0' ≠ '0') then
    match digitsVal s.data with
    | some n => if n ≤ 255 then some n else none
    | none => none
  else none

/-- Parse a dotted-quad IPv4 address into its 32-bit value. -/
def parseIPv4 (s : String) : Option Nat :=
  match splitOnCharStr '.' s with
  | [a, b, c, d] => do
    let a ← parseOctet a
    let b ← parseOctet b
    let c ← parseOctet c
    let d ← parseOctet d
    pure (((a * 256 + b) * 256 + c) * 256 + d)
  | _ => none

/-- Prefix length of a netmask value (contiguous ones), if any. -/
def netmaskPrefixLen (m : Nat) : Option Nat :=
  (List.range 33).find? (fun p => m = 4294967296 - 2 ^ (32 - p))

/-- The mask part of `ipaddress.ip_network(f"{ip}/{mask}", strict=False)`:
an integer prefix length, a dotted netmask, or a dotted hostmask. -/
def maskPrefixLen (mask : String) : Option Nat :=
  if isDigitStr mask then
    match digitsVal mask.data with
    | some p => if p ≤ 32 then some p else none
    | none => none
  else
    match parseIPv4 mask with
    | some m =>
      match netmaskPrefixLen m with
      | some p => some p
      | none => netmaskPrefixLen (4294967295 - m)
    | none => none

/-- Render a 32-bit value as a dotted quad. -/
def fmtIPv4 (n : Nat) : String :=
  toString (n / 16777216 % 256) ++ "." ++ toString (n / 65536 % 256) ++ "." ++
  toString (n / 256 % 256) ++ "." ++ toString (n % 256)

/-- `str(ipaddress.ip_network(f"{ip}/{mask}", strict=False))`: the network
key the builder groups interfaces by; `none` models the exception path. -/
def netKey (ip mask : String) : Option String := do
  let ipv ← parseIPv4 ip
  let p ← maskPrefixLen mask
  let block := 2 ^ (32 - p)
  pure (fmtIPv4 (ipv - ipv % block) ++ "/" ++ toString p)

/-! ## Topology builder (`topology_builder.py`), subnet-edge pass -/

structure SubnetEdge where
  u : String
  v : String
  link_type : String := "subnet"
  subnet : String
  bandwidth_kbps : Int
  cost : Int
  deriving Repr, DecidableEq

/-- `topology_builder._calculate_ospf_cost`: reference bandwidth hard-coded
to 100000 kbps, `//` is floor division, result clamped to `[1, 65535]`;
zero/negative (falsy or non-positive) bandwidth gives 65535. -/
def calculateOspfCost (bandwidth_kbps : Int) : Int :=
  if bandwidth_kbps ≤ 0 then 65535
  else max 1 (min (100000 / bandwidth_kbps) 65535)

/-- `dict.setdefault(k, []).append(v)` on an insertion-ordered map. -/
def mapListAppend (k : String) (v : α) : List (String × List α) → List (String × List α)
  | [] => [(k, [v])]
  | (k0, vs) :: rest =>
    if k0 = k then (k0, vs ++ [v]) :: rest else (k0, vs) :: mapListAppend k v rest

/-- The builder's `subnet_map`: group up interfaces with a parseable
address/mask by network key.  (`is_host_segment` is read with
`.get(..., False)` and is never produced by the parser, so the host-skip
can never fire.) -/
def buildSubnetMap (configs : List (String × ParsedConfig)) :
    List (String × List (String × Interface)) :=
  configs.foldl (fun m p =>
    p.2.interfaces.foldl (fun m iface =>
      match iface.ip_address, iface.subnet_mask with
      | some ip, some mask =>
        if ip = "" ∨ lowerString ip = "dhcp" ∨ mask = "" ∨ iface.status = "down" then m
        else
          match netKey ip mask with
          | some k => mapListAppend k (p.1, iface) m
          | none => m
      | _, _ => m) m) []

/-- All unordered pairs `(i, j)` with `i < j`, in the source's loop order. -/
def allPairs : List α → List (α × α)
  | [] => []
  | x :: xs => xs.map (fun y => (x, y)) ++ allPairs xs

def subnetHasEdge (es : List SubnetEdge) (a b : String) : Bool :=
  es.any (fun e => (e.u == a && e.v == b) || (e.u == b && e.v == a))

/-- Emit the subnet edges of one group (`topology_builder._discover_ip_links`,
inner pair loop): first writer wins, bandwidth is the minimum of the two
endpoint bandwidths, cost comes from `_calculate_ospf_cost`. -/
def addSubnetEdges (subnet : String) (group : List (String × Interface))
    (acc : List SubnetEdge) : List SubnetEdge :=
  (allPairs group).foldl (fun acc q =>
    if subnetHasEdge acc q.1.1 q.2.1 then acc
    else
      let bw := min q.1.2.bandwidth_kbps q.2.2.bandwidth_kbps
      acc ++ [{ u := q.1.1, v := q.2.1, subnet := subnet,
                bandwidth_kbps := bw, cost := calculateOspfCost bw }]) acc

/-- `topology_builder._discover_ip_links` on an initially edge-less graph. -/
def discoverIpLinks (configs : List (String × ParsedConfig)) : List SubnetEdge :=
  (buildSubnetMap configs).foldl (fun acc g =>
    if g.2.length < 2 then acc else addSubnetEdges g.1 g.2 acc) []

/-! ## Static validator (`network_validator.py`), duplicate-IP check -/

/-- Python `f"{vlan}"` for the `access_vlan` value (`None` or an int). -/
def vlanRepr : Option Int → String
  | none => "None"
  | some v => toString v

/-- The `(ip, vlan)` pair of an interface that passes the
`if ip and ip != "dhcp"` filter. -/
def dupKeyOf (i : Interface) : Option (String × String) :=
  match i.ip_address with
  | some ip => if ip ≠ "" ∧ ip ≠ "dhcp" then some (ip, vlanRepr i.access_vlan) else none
  | none => none

def dupMsg (ip vlan d0 d : String) : String :=
  "Duplicate IP " ++ ip ++ " in VLAN " ++ vlan ++ ": devices " ++ d0 ++ " and " ++ d

/-- The `(device, interface)` traversal order of `_check_duplicate_ips`. -/
def dupEntries (configs : List (String × ParsedConfig)) : List (String × Interface) :=
  configs.foldr (fun p acc => p.2.interfaces.map (fun i => (p.1, i)) ++ acc) []

/-- The loop of `NetworkValidator._check_duplicate_ips`: `m` is
`ip_vlan_map` (insertion-ordered, first writer kept), the first component
is the `issues` list. -/
def dupGo : List (String × Interface) → List (String × String) → List String × List (String × String)
  | [], m => ([], m)
  | (dev, iface) :: rest, m =>
    match dupKeyOf iface with
    | none => dupGo rest m
    | some (ip, vlan) =>
      let key := ip ++ "_" ++ vlan
      match m.lookup key with
      | some d0 =>
        let r := dupGo rest m
        (dupMsg ip vlan d0 dev :: r.1, r.2)
      | none => dupGo rest (m ++ [(key, dev)])

def checkDuplicateIps (configs : List (String × ParsedConfig)) : List String :=
  (dupGo (dupEntries configs) []).1

/-- The key (`f"{ip}_{vlan}"`) of an entry, when its interface passes the
filter. -/
def entryKey? (e : String × Interface) : Option String :=
  (dupKeyOf e.2).map (fun q => q.1 ++ "_" ++ q.2)

def entryKeys (es : List (String × Interface)) : List String :=
  es.filterMap entryKey?

/-! ## Day-1 driver (`day1_stimulation.py`) -/

structure TopoEdge where
  u : String
  v : String
  link_type : Option String := none
  title : String := ""
  deriving Repr, DecidableEq

/-- `self.topo.neighbors(dev)` read off the edge list. -/
def neighborsOf (edges : List TopoEdge) (dev : String) : List String :=
  edges.foldl (fun acc e =>
    if e.u == dev then acc ++ [e.v]
    else if e.v == dev then acc ++ [e.u] else acc) []

/-- `self.topo[dev][nbr]`: the attribute record of the edge between two
nodes, if present. -/
def edgeBetween (edges : List TopoEdge) (a b : String) : Option TopoEdge :=
  edges.find? (fun e => (e.u == a && e.v == b) || (e.u == b && e.v == a))

/-- `Day1Simulator.trigger_ospf`: record mutual OSPF neighbors for every
`subnet` edge whose title mentions `ospf`. -/
def triggerOspf (edges : List TopoEdge) : List (String × List String) :=
  edges.foldl (fun m e =>
    if e.link_type == some "subnet" && strContains (lowerString e.title) "ospf" then
      mapListAppend e.v e.u (mapListAppend e.u e.v m)
    else m) []

/-- `Day1Simulator.validate_neighbors`.  The `for nbr in exp_ospf` loop in
the source is dedented out of the `for dev in self.configs` loop, so only
the values of `dev`, `exp_ospf` and `got` left over from the last device
are checked; with no configs the loop body never runs and `exp_ospf` is
unbound (`NameError`), modelled as `none`. -/
def validateNeighbors (configs : List (String × ParsedConfig)) (edges : List TopoEdge)
    (ospf_neighbors : List (String × List String)) : Option (List String) :=
  match configs.getLast? with
  | none => none
  | some q =>
    let dev := q.1
    let exp_ospf := (neighborsOf edges dev).filter (fun nbr =>
      match edgeBetween edges dev nbr with
      | some e => e.link_type == some "ospf"
      | none => false)
    let got := ((ospf_neighbors.lookup dev).getD [])
    some ((exp_ospf.filter (fun nbr => !(got.contains nbr))).map
      (fun nbr => "OSPF: " ++ dev ++ " failed to form neighbor with " ++ nbr))

/-! ## Simulation engine (`simulation_engine.py`) -/

structure Payload where
  request : Bool := false
  reply : Bool := false
  hello : Bool := false
  target_ip : Option String := none
  mac : Option String := none
  router_id : Option String := none
  area : Option String := none
  as_number : Option String := none
  failed_neighbor : Option String := none
  deriving Repr, DecidableEq

structure Packet where
  source_mac : String := ""
  dest_mac : String := ""
  source_ip : String := ""
  dest_ip : String := ""
  packet_type : String
  payload : Payload := {}
  timestamp : Nat := 0
  ttl : Int := 64
  deriving Repr, DecidableEq

structure Stats where
  packets_sent : Nat := 0
  packets_received : Nat := 0
  packets_dropped : Nat := 0
  uptime : Int := 0
  last_update : Nat
  deriving Repr, DecidableEq

structure LogEntry where
  timestamp : Nat
  kind : String
  destination : Option String := none
  packet : Packet
  deriving Repr, DecidableEq

structure ArpEntry where
  mac : String
  timestamp : Nat
  deriving Repr, DecidableEq

structure OspfNbr where
  ip : String
  state : String
  last_hello : Nat
  deriving Repr, DecidableEq

structure BgpSess where
  as_number : String
  state : String
  last_keepalive : Nat
  deriving Repr, DecidableEq

structure NodeState where
  node_id : String
  config : ParsedConfig
  device_type : String
  running : Bool := false
  paused : Bool := false
  rx_queue : List Packet := []
  tx_queue : List Packet := []
  mac_address : String
  ip_addresses : List String
  arp_table : List (String × ArpEntry) := []
  routing_table : List (String × String) := []
  statistics : Stats
  packet_log : List LogEntry := []
  ospf_neighbors : List (String × OspfNbr) := []
  bgp_sessions : List (String × BgpSess) := []
  deriving Repr, DecidableEq

/-- `NetworkNode._get_ip_addresses`. -/
def getIpAddresses (cfg : ParsedConfig) : List String :=
  cfg.interfaces.foldl (fun acc i =>
    match i.ip_address with
    | some ip => if ip ≠ "" ∧ ip ≠ "dhcp" then acc ++ [ip] else acc
    | none => acc) []

/-- `NetworkNode.__init__` (the random MAC is passed in; clocks are `Nat`
timestamps). -/
def initNode (nid : String) (cfg : ParsedConfig) (mac : String) (now : Nat) : NodeState :=
  { node_id := nid, config := cfg, device_type := cfg.device_type,
    mac_address := mac, ip_addresses := getIpAddresses cfg,
    statistics := { last_update := now } }

/-- Python dict assignment `m[k] = v` on an insertion-ordered map. -/
def dictSet (k : String) (v : α) : List (String × α) → List (String × α)
  | [] => [(k, v)]
  | (k0, v0) :: rest => if k0 = k then (k0, v) :: rest else (k0, v0) :: dictSet k v rest

/-- `NetworkNode.send_packet`: appends to the packet log and increments
`packets_sent`; it does not enqueue anything onto `tx_queue`. -/
def sendPacket (n : NodeState) (p : Packet) (dest : String) : NodeState :=
  { n with
    packet_log := n.packet_log ++
      [{ timestamp := p.timestamp, kind := "sent", destination := some dest, packet := p }],
    statistics := { n.statistics with packets_sent := n.statistics.packets_sent + 1 } }

/-- `NetworkNode._handle_arp`. -/
def handleArp (now : Nat) (n : NodeState) (p : Packet) : NodeState :=
  let n :=
    if p.payload.request then
      match p.payload.target_ip with
      | some tip =>
        if n.ip_addresses.contains tip then
          sendPacket n
            { source_mac := n.mac_address, dest_mac := p.source_mac,
              source_ip := tip, dest_ip := p.source_ip, packet_type := "ARP",
              payload := { reply := true, mac := some n.mac_address },
              timestamp := now } p.source_ip
        else n
      | none => n
    else n
  { n with arp_table := dictSet p.source_ip { mac := p.source_mac, timestamp := now } n.arp_table }

/-- `NetworkNode._handle_ospf` (routers only; empty router-id is falsy). -/
def handleOspf (now : Nat) (n : NodeState) (p : Packet) : NodeState :=
  if n.device_type = "router" then
    match p.payload.router_id with
    | some rid =>
      if rid ≠ "" then
        { n with ospf_neighbors :=
            dictSet rid { ip := p.source_ip, state := "full", last_hello := now } n.ospf_neighbors }
      else n
    | none => n
  else n

/-- `NetworkNode._handle_bgp` (routers only; empty AS is falsy). -/
def handleBgp (now : Nat) (n : NodeState) (p : Packet) : NodeState :=
  if n.device_type = "router" then
    match p.payload.as_number with
    | some asn =>
      if asn ≠ "" then
        { n with bgp_sessions :=
            dictSet p.source_ip { as_number := asn, state := "established", last_keepalive := now } n.bgp_sessions }
      else n
    | none => n
  else n

/-- `NetworkNode._lookup_route`: first route whose network string's first
seven characters are a prefix of the destination address. -/
def lookupRoute (table : List (String × String)) (dest_ip : String) : Option String :=
  (table.find? (fun r => startsWithL dest_ip (((splitOnCharStr '/' r.1).headD r.1).take 7))).map (fun r => r.2)

/-- `NetworkNode._forward_packet`: TTL is decremented only when a route was
found; on decrement to a non-positive value `packets_dropped` is bumped. -/
def forwardPacket (n : NodeState) (p : Packet) : NodeState :=
  match lookupRoute n.routing_table p.dest_ip with
  | some hop =>
    let t := p.ttl - 1
    if t > 0 then sendPacket n { p with ttl := t } hop
    else { n with statistics :=
            { n.statistics with packets_dropped := n.statistics.packets_dropped + 1 } }
  | none => n

/-- `NetworkNode._handle_data`. -/
def handleData (n : NodeState) (p : Packet) : NodeState :=
  if n.ip_addresses.contains p.dest_ip then n else forwardPacket n p

/-- `NetworkNode._handle_packet`: log the packet, then dispatch on its
kind (a `LINK_FAILURE` packet is only logged). -/
def handlePacket (now : Nat) (n : NodeState) (p : Packet) : NodeState :=
  let n := { n with packet_log := n.packet_log ++
    [{ timestamp := p.timestamp, kind := "received", packet := p }] }
  if p.packet_type = "ARP" then handleArp now n p
  else if p.packet_type = "OSPF" then handleOspf now n p
  else if p.packet_type = "BGP" then handleBgp now n p
  else if p.packet_type = "DATA" then handleData n p
  else n

/-- `NetworkNode._process_packets`: drain the inbound queue, counting each
packet in `packets_received`. -/
def processPackets (now : Nat) (n : NodeState) : NodeState :=
  n.rx_queue.foldl (fun acc p =>
    let acc := handlePacket now acc p
    { acc with statistics :=
        { acc.statistics with packets_received := acc.statistics.packets_received + 1 } })
    { n with rx_queue := [] }

def topoNeighbors (topo : List (String × String)) (nid : String) : List String :=
  topo.foldl (fun acc e =>
    if e.1 == nid then acc ++ [e.2]
    else if e.2 == nid then acc ++ [e.1] else acc) []

/-- `NetworkNode._send_hello_packets`. -/
def sendHellos (topo : List (String × String)) (now : Nat) (n : NodeState) : NodeState :=
  if n.config.ospf.enabled then
    (topoNeighbors topo n.node_id).foldl (fun acc nbr =>
      sendPacket acc
        { source_mac := acc.mac_address, dest_mac := "ff:ff:ff:ff:ff:ff",
          source_ip := acc.ip_addresses.headD "0.0.0.0", dest_ip := "224.0.0.5",
          packet_type := "OSPF",
          payload := { hello := true, router_id := some acc.node_id, area := some "0.0.0.0" },
          timestamp := now } nbr) n
  else n

/-- `NetworkNode._cleanup_arp_table` (entries older than 300 s). -/
def cleanupArp (now : Nat) (n : NodeState) : NodeState :=
  { n with arp_table := n.arp_table.filter (fun e => decide (now - e.2.timestamp ≤ 300)) }

/-- `NetworkNode._periodic_tasks`; the wall-clock modulo gates
(`time.time() % 10 < 0.1` etc.) are abstracted into the Booleans. -/
def periodicTasks (topo : List (String × String)) (now : Nat) (g10 g30 : Bool)
    (n : NodeState) : NodeState :=
  let n := if n.device_type = "router" ∧ g10 then sendHellos topo now n else n
  if g30 then cleanupArp now n else n

/-- `NetworkNode._update_statistics`. -/
def updateStatistics (now : Nat) (n : NodeState) : NodeState :=
  { n with statistics := { n.statistics with
      uptime := (now : Int) - (n.statistics.last_update : Int), last_update := now } }

/-- One iteration of `NetworkNode.run`'s loop body. -/
def agentIteration (topo : List (String × String)) (now : Nat) (g10 g30 : Bool)
    (n : NodeState) : NodeState :=
  if n.paused then n
  else updateStatistics now (periodicTasks topo now g10 g30 (processPackets now n))

structure SimState where
  nodes : List (String × NodeState)
  topology : List (String × String)
  running : Bool := false
  paused : Bool := false
  deriving Repr, DecidableEq

def topoHasEdge (topo : List (String × String)) (a b : String) : Bool :=
  topo.any (fun e => (e.1 == a && e.2 == b) || (e.1 == b && e.2 == a))

def topoRemoveEdge (topo : List (String × String)) (a b : String) : List (String × String) :=
  topo.filter (fun e => !((e.1 == a && e.2 == b) || (e.1 == b && e.2 == a)))

/-- Apply `f` to the node registered under `nid`. -/
def updateNode (s : SimState) (nid : String) (f : NodeState → NodeState) : SimState :=
  { s with nodes := s.nodes.map (fun p => if p.1 == nid then (p.1, f p.2) else p) }

/-- `SimulationEngine._deliver_packet`: copy onto every current
graph-neighbor's inbound queue (capacity 1000); a full queue drops the
packet and bumps the sender's `packets_dropped`.  A neighbor name missing
from the node table is skipped (the source would raise `KeyError` inside
the daemon routing thread). -/
def deliverPacket (s : SimState) (sender : String) (p : Packet) : SimState :=
  (topoNeighbors s.topology sender).foldl (fun st nbr =>
    match st.nodes.lookup nbr with
    | some nnode =>
      if nnode.rx_queue.length < 1000 then
        updateNode st nbr (fun m => { m with rx_queue := m.rx_queue ++ [p] })
      else
        updateNode st sender (fun m => { m with statistics :=
          { m.statistics with packets_dropped := m.statistics.packets_dropped + 1 } })
    | none => st) s

/-- The inner drain of `SimulationEngine._route_packets` for one node:
dequeue everything from its outbound queue and deliver each packet. -/
def drainNodeTx (s : SimState) (nid : String) : SimState :=
  match s.nodes.lookup nid with
  | none => s
  | some n =>
    let s := updateNode s nid (fun m => { m with tx_queue := [] })
    n.tx_queue.foldl (fun st p => deliverPacket st nid p) s

/-- One pass of the delivery worker over all nodes (skipped while the
engine is paused). -/
def routeIteration (s : SimState) : SimState :=
  if s.paused then s
  else (s.nodes.map (fun p => p.1)).foldl (fun st nid => drainNodeTx st nid) s

/-- `SimulationEngine.inject_link_failure`. -/
def injectLinkFailure (s : SimState) (node1 node2 : String) (now : Nat) : SimState :=
  if topoHasEdge s.topology node1 node2 then
    let s2 := { s with topology := topoRemoveEdge s.topology node1 node2 }
    match s2.nodes.lookup node1 with
    | some n1 =>
      let fp : Packet :=
        { source_mac := "00:00:00:00:00:00", dest_mac := n1.mac_address,
          source_ip := "0.0.0.0", dest_ip := n1.ip_addresses.headD "0.0.0.0",
          packet_type := "LINK_FAILURE",
          payload := { failed_neighbor := some node2 }, timestamp := now }
      updateNode s2 node1 (fun m => { m with rx_queue := m.rx_queue ++ [fp] })
    | none => s2
  else s

/-- `SimulationEngine.restore_link`. -/
def restoreLink (s : SimState) (node1 node2 : String) : SimState :=
  if topoHasEdge s.topology node1 node2 then s
  else { s with topology := s.topology ++ [(node1, node2)] }

def startSimulation (s : SimState) : SimState :=
  { s with running := true,
           nodes := s.nodes.map (fun p => (p.1, { p.2 with running := true })) }

def pauseSimulation (s : SimState) : SimState :=
  { s with paused := true,
           nodes := s.nodes.map (fun p => (p.1, { p.2 with paused := true })) }

def resumeSimulation (s : SimState) : SimState :=
  { s with paused := false,
           nodes := s.nodes.map (fun p => (p.1, { p.2 with paused := false })) }

def stopSimulation (s : SimState) : SimState :=
  { s with running := false,
           nodes := s.nodes.map (fun p => (p.1, { p.2 with running := false })) }

/-! ### Control plane -/

/-- A decoded IPC request object; absent JSON keys are `none`. -/
structure IpcCommand where
  type : Option String := none
  node_id : Option String := none
  deriving Repr, DecidableEq

/-- The snapshot of `NetworkNode.get_statistics`. -/
structure NodeStatistics where
  node_id : String
  device_type : String
  statistics : Stats
  arp_table_size : Nat
  routing_table_size : Nat
  packet_log_size : Nat
  deriving Repr, DecidableEq

def getStatistics (n : NodeState) : NodeStatistics :=
  { node_id := n.node_id, device_type := n.device_type, statistics := n.statistics,
    arp_table_size := n.arp_table.length, routing_table_size := n.routing_table.length,
    packet_log_size := n.packet_log.length }

inductive IpcResponse where
  | statistics (snap : List (String × NodeStatistics))
  | result (s : String)
  | error (s : String)
  deriving Repr, DecidableEq

/-- `SimulationEngine._process_ipc_command`: a `pause_node`/`resume_node`
naming an unknown node falls through to `Unknown command`. -/
def processIpcCommand (s : SimState) (cmd : IpcCommand) : IpcResponse × SimState :=
  if cmd.type == some "get_statistics" then
    (.statistics (s.nodes.map (fun p => (p.1, getStatistics p.2))), s)
  else if cmd.type == some "pause_node" then
    match cmd.node_id with
    | some nid =>
      if (s.nodes.lookup nid).isSome then
        (.result "paused", updateNode s nid (fun m => { m with paused := true }))
      else (.error "Unknown command", s)
    | none => (.error "Unknown command", s)
  else if cmd.type == some "resume_node" then
    match cmd.node_id with
    | some nid =>
      if (s.nodes.lookup nid).isSome then
        (.result "resumed", updateNode s nid (fun m => { m with paused := false }))
      else (.error "Unknown command", s)
    | none => (.error "Unknown command", s)
  else (.error "Unknown command", s)

/-- One `recv` iteration of `SimulationEngine._handle_client`; `none`
models bytes that fail `json.loads` — the handler answers
`Invalid JSON` and keeps the connection open. -/
def handleClientStep (s : SimState) (data : Option IpcCommand) : IpcResponse × SimState :=
  match data with
  | none => (.error "Invalid JSON", s)
  | some cmd => processIpcCommand s cmd

/-- The connection handler over a sequence of received requests; one
response is written per request. -/
def handleClient (s : SimState) : List (Option IpcCommand) → List IpcResponse × SimState
  | [] => ([], s)
  | d :: rest =>
    let r := handleClientStep s d
    let rs := handleClient r.2 rest
    (r.1 :: rs.1, rs.2)

/-! ### Whole-run step relation -/

/-- `SimulationEngine.__init__` plus `_initialize_nodes`: every node starts
with empty queues and tables. -/
def initSim (configs : List (String × ParsedConfig)) (macs : String → String) (now : Nat)
    (topo : List (String × String)) : SimState :=
  { nodes := configs.map (fun p => (p.1, initNode p.1 p.2 (macs p.1) now)),
    topology := topo }

/-- The atomic state changes a run can perform: agent loop iterations,
delivery-worker passes, lifecycle calls, fault injection and IPC commands. -/
inductive SimStep : SimState → SimState → Prop where
  | start (s : SimState) : SimStep s (startSimulation s)
  | agent (s : SimState) (nid : String) (now : Nat) (g10 g30 : Bool) :
      SimStep s (updateNode s nid (agentIteration s.topology now g10 g30))
  | route (s : SimState) (h : s.running = true) : SimStep s (routeIteration s)
  | inject (s : SimState) (a b : String) (now : Nat) : SimStep s (injectLinkFailure s a b now)
  | restore (s : SimState) (a b : String) : SimStep s (restoreLink s a b)
  | pauseAll (s : SimState) : SimStep s (pauseSimulation s)
  | resumeAll (s : SimState) : SimStep s (resumeSimulation s)
  | stop (s : SimState) : SimStep s (stopSimulation s)
  | ipc (s : SimState) (cmd : IpcCommand) : SimStep s (processIpcCommand s cmd).2

/-- States reachable from `s` by any interleaving of steps. -/
inductive SimReach : SimState → SimState → Prop where
  | refl (s : SimState) : SimReach s s
  | tail {s t u : SimState} : SimReach s t → SimStep t u → SimReach s u

/-! ### Spec-modelled routing lookup for comparison (claim C5) -/

/-- CIDR `A.B.C.D/p` of a routing-table key, when it has that shape. -/
def parseCidr (r : String) : Option (Nat × Nat) :=
  match splitOnCharStr '/' r with
  | [ipStr, pStr] =>
    (parseIPv4 ipStr).bind (fun ip =>
      (digitsVal pStr.data).bind (fun p =>
        if p ≤ 32 then some (ip, p) else none))
  | _ => none

def ipInPrefixLen (ip net p : Nat) : Bool :=
  ip / 2 ^ (32 - p) == net / 2 ^ (32 - p)

/-- Modelled from the spec: "look up a next hop by longest-prefix match
against the routing table" — among the CIDR routes containing the
destination, pick one with the longest prefix. -/
def lookupRouteLpm (table : List (String × String)) (dest : String) : Option String :=
  match parseIPv4 dest with
  | none => none
  | some d =>
    let cands := table.filterMap (fun r =>
      match parseCidr r.1 with
      | some q => if ipInPrefixLen d q.1 q.2 then some (q.2, r.2) else none
      | none => none)
    (cands.foldl (fun best c =>
      match best with
      | none => some c
      | some b => if c.1 > b.1 then some c else some b) none).map (fun q => q.2)

/-- Claim C5 as stated: a non-local DATA packet has its TTL decremented;
if still positive it is forwarded to the longest-prefix-match next hop,
and on reaching zero `packets_dropped` is incremented. -/
def c5ClaimProp : Prop :=
  ∀ (n : NodeState) (p : Packet), p.packet_type = "DATA" → ¬ p.dest_ip ∈ n.ip_addresses →
    (p.ttl - 1 > 0 →
      ∃ hop, lookupRouteLpm n.routing_table p.dest_ip = some hop ∧
        handleData n p = sendPacket n { p with ttl := p.ttl - 1 } hop) ∧
    (p.ttl - 1 = 0 →
      (handleData n p).statistics.packets_dropped = n.statistics.packets_dropped + 1)

/-! ## Concrete inputs used by the individual claim theorems -/

def c3Edges : List TopoEdge :=
  [{ u := "A", v := "B", link_type := some "ospf", title := "OSPF Link" }]

def c3Configs : List (String × ParsedConfig) := [("A", {}), ("B", {})]

def c4State : SimState :=
  initSim [("A", {}), ("B", {})] (fun _ => "02:00:00:00:00:01") 0 []

def c5Node : NodeState :=
  { node_id := "N", config := {}, device_type := "pc", mac_address := "02:00:00:00:00:02",
    ip_addresses := ["10.0.0.1"], statistics := { last_update := 0 } }

def c5Packet : Packet := { packet_type := "DATA", dest_ip := "10.0.0.2", ttl := 1 }

def c5Table : List (String × String) := [("192.168.1.0/24", "A")]

def cfgTwoRouterIface (ip : String) : ParsedConfig :=
  { device_type := "router", ospf := { enabled := true },
    interfaces := [{ name := "GigabitEthernet0/0", ip_address := some ip,
                     subnet_mask := some "255.255.255.252", bandwidth_kbps := 1000000 }] }

def c6State : SimState :=
  initSim [("R1", cfgTwoRouterIface "10.0.0.1")] (fun _ => "02:00:00:00:00:03") 0 []

def c6Requests : List (Option IpcCommand) :=
  [none, some { type := some "bogus" }, some { type := some "pause_node", node_id := some "R1" }]

def hostWithVlan (v : Option Int) : ParsedConfig :=
  { interfaces := [{ name := "FastEthernet0/0", ip_address := some "10.0.0.5",
                     subnet_mask := some "255.255.255.0", access_vlan := v }] }

def c9ConfigsDistinct : List (String × ParsedConfig) :=
  [("H1", hostWithVlan (some 10)), ("H2", hostWithVlan (some 20))]

def c9ConfigsShared : List (String × ParsedConfig) :=
  [("H1", hostWithVlan (some 10)), ("H2", hostWithVlan (some 10))]

def c10Configs : List (String × ParsedConfig) :=
  [("R1", cfgTwoRouterIface "10.0.0.1"), ("R2", cfgTwoRouterIface "10.0.0.2")]

def c10Edge : SubnetEdge :=
  { u := "R1", v := "R2", subnet := "10.0.0.0/30", bandwidth_kbps := 1000000, cost := 1 }

def c2State : SimState :=
  initSim [("R1", cfgTwoRouterIface "10.0.0.1"), ("R2", cfgTwoRouterIface "10.0.0.2")]
    (fun _ => "02:00:00:00:00:04") 0 [("R1", "R2")]

/-- Per-node part of the run invariant: the outbound queue is empty and
every queued inbound packet is an injected `LINK_FAILURE`. -/
def NodeInv (n : NodeState) : Prop :=
  n.tx_queue = [] ∧ ∀ q ∈ n.rx_queue, q.packet_type = "LINK_FAILURE"

/-- The run invariant over all registered agents. -/
def SimInv (s : SimState) : Prop :=
  ∀ p ∈ s.nodes, NodeInv p.2

/-- The cost field of an edge agrees with `_calculate_ospf_cost` of its
bandwidth field. -/
def costOk (e : SubnetEdge) : Prop :=
  e.cost = calculateOspfCost e.bandwidth_kbps

end NetSim

namespace NetSim

/-! ## Helper lemmas -/

theorem foldl_pres {α β : Type _} {P : β → Prop} (f : β → α → β)
    (h : ∀ b a, P b → P (f b a)) : ∀ (l : List α) (b : β), P b → P (l.foldl f b) := by
  intro l
  induction l with
  | nil => exact fun b hb => hb
  | cons x xs ih => exact fun b hb => ih (f b x) (h b x hb)

theorem takeWhile_isPrefixOf (q : Char → Bool) :
    ∀ l : List Char, (l.takeWhile q).isPrefixOf l = true := by
  intro l
  induction l with
  | nil => rfl
  | cons c cs ih =>
    rw [List.takeWhile]
    cases hq : q c
    · rfl
    · simpa [List.isPrefixOf] using ih

theorem drop_takeWhile_length (q : Char → Bool) :
    ∀ l : List Char, l.drop (l.takeWhile q).length = l.dropWhile q := by
  intro l
  induction l with
  | nil => rfl
  | cons c cs ih =>
    rw [List.takeWhile, List.dropWhile]
    cases hq : q c
    · simp
    · simpa using ih

theorem replaceOnce_takeWhile (q : Char → Bool) (rep : List Char) (s : List Char) :
    replaceOnceAux (s.takeWhile q) rep s = rep ++ s.dropWhile q := by
  cases s with
  | nil => simp [replaceOnceAux, List.takeWhile, List.dropWhile, List.isPrefixOf]
  | cons c cs =>
    rw [replaceOnceAux, if_pos]
    · rw [drop_takeWhile_length]
    · exact takeWhile_isPrefixOf q (c :: cs)

/-! ## Claim theorems -/

/-- C1: the claim says `parse` never raises and records the BGP neighbor of
a well-formed `neighbor A.B.C.D remote-as <asn>` line; the code instead
reads `parts[4]` on the four-token line and raises `IndexError`. -/
theorem bgp_neighbor_wellformed_line_raises_index_error :
    parseConfig "router bgp 65000\nneighbor 10.0.0.1 remote-as 65001" =
      Except.error "IndexError: list index out of range" := by
  rfl

/-- C8: inside an open `router ospf` block, the claim says the stored
network entry's area field equals the directive's `<id>` token; the source
stores `parts[3]`, the literal token `area`, so parsing
`network 10.0.0.0 0.0.0.255 area 5` records area `"area"`, not `"5"`. -/
theorem ospf_network_area_stores_literal_token :
    (parseConfig "router ospf 1\nnetwork 10.0.0.0 0.0.0.255 area 5").map
        (fun p => p.ospf.networks) =
      Except.ok [{ ip := "10.0.0.0", wildcard := "0.0.0.255", area := "area" }] ∧
    ("area" : String) ≠ "5" := by
  exact ⟨rfl, by decide⟩

/-- C7 (counterexample): the claim says `interface gi0/0` is stored as
`GigabitEthernet0/0`; the family table holds full names, `gi0/0` matches
none of them, and the name is stored verbatim. -/
theorem interface_abbreviation_counterexample :
    (parseConfig "interface gi0/0").map (fun p => p.interfaces.map (fun i => i.name)) =
      Except.ok ["gi0/0"] ∧
    ("gi0/0" : String) ≠ "GigabitEthernet0/0" := by
  exact ⟨rfl, by decide⟩

/-- C7 (amended): a name whose case-insensitive prefix matches a full
family name from the table has the text before its first `/` replaced by
the canonical family name; all other names (including abbreviations such
as `gi0/0`) are stored verbatim. -/
theorem interface_normalization_amended (name fam canon : String)
    (h : interfaceTypes.find? (fun q => startsWithL (lowerString (trimPy name)) q.1) = some (fam, canon)) :
    normalizeInterfaceName name =
      canon ++ String.mk ((trimPy name).data.dropWhile (fun c => c ≠ '/')) := by
  unfold normalizeInterfaceName
  dsimp only
  rw [h]
  dsimp only
  rw [replaceOnce_takeWhile]
  cases canon
  rfl

theorem handleClient_length (reqs : List (Option IpcCommand)) :
    ∀ s : SimState, (handleClient s reqs).1.length = reqs.length := by
  induction reqs with
  | nil => intro s; rfl
  | cons d rest ih => intro s; simp [handleClient, ih]

theorem lookup_map_update {β : Type _} (nodes : List (String × β)) (nid : String) (f : β → β) :
    (nodes.map (fun p => if p.1 == nid then (p.1, f p.2) else p)).lookup nid =
      (nodes.lookup nid).map f := by
  induction nodes with
  | nil => rfl
  | cons p rest ih =>
    obtain ⟨k, v⟩ := p
    dsimp only [List.map]
    by_cases hp : k = nid
    · subst hp
      rw [if_pos (beq_self_eq_true k)]
      simp only [List.lookup, beq_self_eq_true]
      rfl
    · have hb : (k == nid) = false := beq_eq_false_iff_ne.mpr hp
      have hnb : (nid == k) = false := beq_eq_false_iff_ne.mpr (Ne.symm hp)
      rw [if_neg (by rw [hb]; exact Bool.false_ne_true)]
      simp only [List.lookup, hnb]
      exact ih

/-- C6: each processed request yields exactly one response; a type other
than the three recognized ones yields `Unknown command` and leaves the
engine unchanged; undecodable bytes yield `Invalid JSON` with the
connection still processing subsequent requests; `pause_node` for a known
node answers `paused` and sets that node's paused flag. -/
theorem control_plane_contract (s : SimState) (reqs : List (Option IpcCommand)) :
    ((handleClient s reqs).1.length = reqs.length) ∧
    (∀ cmd : IpcCommand,
      cmd.type ∉ [some "get_statistics", some "pause_node", some "resume_node"] →
      processIpcCommand s cmd = (.error "Unknown command", s)) ∧
    (∀ rest, handleClient s (none :: rest) =
      ((IpcResponse.error "Invalid JSON") :: (handleClient s rest).1, (handleClient s rest).2)) ∧
    (∀ nid n, s.nodes.lookup nid = some n →
      (processIpcCommand s { type := some "pause_node", node_id := some nid }).1 =
        .result "paused" ∧
      ((processIpcCommand s { type := some "pause_node", node_id := some nid }).2).nodes.lookup
        nid = some { n with paused := true }) := by
  refine ⟨handleClient_length reqs s, ?_, fun rest => rfl, ?_⟩
  · intro cmd hcmd
    have h1 : cmd.type ≠ some "get_statistics" := fun he => hcmd (by simp [he])
    have h2 : cmd.type ≠ some "pause_node" := fun he => hcmd (by simp [he])
    have h3 : cmd.type ≠ some "resume_node" := fun he => hcmd (by simp [he])
    simp [processIpcCommand, h1, h2, h3]
  · intro nid n hl
    have hsome : (s.nodes.lookup nid).isSome = true := by rw [hl]; rfl
    constructor
    · simp [processIpcCommand, hsome]
    · simp only [processIpcCommand]
      rw [if_neg (by decide), if_pos (by decide)]
      rw [if_pos hsome]
      exact (lookup_map_update s.nodes nid (fun m => { m with paused := true })).trans
        (by rw [hl]; rfl)

theorem control_plane_contract_witness :
    (handleClient c6State c6Requests).1.length = c6Requests.length ∧
    processIpcCommand c6State { type := some "bogus" } = (.error "Unknown command", c6State) ∧
    handleClient c6State [none] = ([.error "Invalid JSON"], c6State) ∧
    (processIpcCommand c6State { type := some "pause_node", node_id := some "R1" }).1 =
      .result "paused" := by
  have h := control_plane_contract c6State c6Requests
  refine ⟨h.1, h.2.1 _ (by decide), ?_, ?_⟩
  · rw [h.2.2.1 []]
    rfl
  · exact (h.2.2.2 "R1"
      (initNode "R1" (cfgTwoRouterIface "10.0.0.1") "02:00:00:00:00:03" 0) (by rfl)).1

theorem calculateOspfCost_bounds (b : Int) :
    1 ≤ calculateOspfCost b ∧ calculateOspfCost b ≤ 65535 := by
  unfold calculateOspfCost
  split
  · exact ⟨by norm_num, by norm_num⟩
  · exact ⟨le_max_left 1 _, max_le (by norm_num) (min_le_right _ _)⟩

theorem addSubnetEdges_costOk (subnet : String) (group : List (String × Interface))
    (acc : List SubnetEdge) (hacc : ∀ x ∈ acc, costOk x) :
    ∀ x ∈ addSubnetEdges subnet group acc, costOk x := by
  unfold addSubnetEdges
  refine foldl_pres (P := fun l => ∀ x ∈ l, costOk x) _ ?_ _ acc hacc
  intro b q hb
  dsimp only
  split
  · exact hb
  · intro x hx
    rw [List.mem_append] at hx
    cases hx with
    | inl hmem => exact hb x hmem
    | inr hmem =>
      rw [List.mem_singleton] at hmem
      subst hmem
      rfl

theorem discoverIpLinks_costOk (configs : List (String × ParsedConfig)) :
    ∀ e ∈ discoverIpLinks configs, costOk e := by
  unfold discoverIpLinks
  refine foldl_pres (P := fun l => ∀ x ∈ l, costOk x) _ ?_ _ [] (by intro x hx; cases hx)
  intro b g hb
  dsimp only
  split
  · exact hb
  · exact addSubnetEdges_costOk _ _ _ hb

/-- C10: every subnet edge carries cost `_calculate_ospf_cost(b)` for `b`
the minimum endpoint bandwidth recorded on the edge; for `b > 0` that is
`clamp(100000 // b, 1, 65535)`, for `b ≤ 0` it is 65535, and every cost
lies in `[1, 65535]`. -/
theorem subnet_edge_cost_clamped (configs : List (String × ParsedConfig)) (e : SubnetEdge)
    (h : e ∈ discoverIpLinks configs) :
    e.cost = calculateOspfCost e.bandwidth_kbps ∧
    (0 < e.bandwidth_kbps → e.cost = max 1 (min (100000 / e.bandwidth_kbps) 65535)) ∧
    (e.bandwidth_kbps ≤ 0 → e.cost = 65535) ∧
    1 ≤ e.cost ∧ e.cost ≤ 65535 := by
  have hco : e.cost = calculateOspfCost e.bandwidth_kbps := discoverIpLinks_costOk configs e h
  refine ⟨hco, ?_, ?_, ?_, ?_⟩
  · intro hb
    rw [hco]
    unfold calculateOspfCost
    rw [if_neg (not_le.mpr hb)]
  · intro hb
    rw [hco]
    unfold calculateOspfCost
    rw [if_pos hb]
  · rw [hco]
    exact (calculateOspfCost_bounds _).1
  · rw [hco]
    exact (calculateOspfCost_bounds _).2

theorem subnet_edge_cost_clamped_witness :
    c10Edge ∈ discoverIpLinks c10Configs ∧
    c10Edge.cost = calculateOspfCost c10Edge.bandwidth_kbps ∧
    1 ≤ c10Edge.cost ∧ c10Edge.cost ≤ 65535 := by
  have h := subnet_edge_cost_clamped c10Configs c10Edge (by decide)
  exact ⟨by decide, h.1, h.2.2.2.1, h.2.2.2.2⟩

theorem lookup_append_of_some {β : Type _} {m1 : List (String × β)} (m2 : List (String × β))
    {k : String} {v : β} (h : m1.lookup k = some v) : (m1 ++ m2).lookup k = some v := by
  induction m1 with
  | nil => cases h
  | cons p rest ih =>
    obtain ⟨k0, v0⟩ := p
    simp only [List.cons_append, List.lookup] at h ⊢
    cases hk : (k == k0)
    · rw [hk] at h
      exact ih h
    · rw [hk] at h
      exact h

theorem lookup_append_of_none {β : Type _} {m1 : List (String × β)} (m2 : List (String × β))
    {k : String} (h : m1.lookup k = none) : (m1 ++ m2).lookup k = m2.lookup k := by
  induction m1 with
  | nil => rfl
  | cons p rest ih =>
    obtain ⟨k0, v0⟩ := p
    simp only [List.cons_append, List.lookup] at h ⊢
    cases hk : (k == k0)
    · rw [hk] at h
      exact ih h
    · rw [hk] at h
      exact Option.noConfusion h

theorem entryKeys_append (a b : List (String × Interface)) :
    entryKeys (a ++ b) = entryKeys a ++ entryKeys b := by
  simp [entryKeys, List.filterMap_append]

theorem entryKeys_cons_some {e : String × Interface} {k : String} (h : entryKey? e = some k)
    (rest : List (String × Interface)) : entryKeys (e :: rest) = k :: entryKeys rest := by
  simp [entryKeys, List.filterMap_cons, h]

theorem entryKeys_cons_none {e : String × Interface} (h : entryKey? e = none)
    (rest : List (String × Interface)) : entryKeys (e :: rest) = entryKeys rest := by
  simp [entryKeys, List.filterMap_cons, h]

theorem dupGo_append (xs ys : List (String × Interface)) :
    ∀ m, dupGo (xs ++ ys) m =
      ((dupGo xs m).1 ++ (dupGo ys (dupGo xs m).2).1, (dupGo ys (dupGo xs m).2).2) := by
  induction xs with
  | nil => intro m; simp [dupGo]
  | cons e rest ih =>
    intro m
    obtain ⟨dev, iface⟩ := e
    simp only [List.cons_append, dupGo]
    cases hk : dupKeyOf iface with
    | none => exact ih m
    | some q =>
      obtain ⟨ip, vlan⟩ := q
      dsimp only
      cases hm : List.lookup (ip ++ "_" ++ vlan) m with
      | some d0 => simp [ih m]
      | none => exact ih _

theorem dupGo_clean (xs : List (String × Interface)) :
    ∀ m, (entryKeys xs).Nodup → (∀ k ∈ entryKeys xs, m.lookup k = none) →
      (dupGo xs m).1 = [] ∧
      ∃ madd, (dupGo xs m).2 = m ++ madd ∧
        ∀ k, k ∉ entryKeys xs → madd.lookup k = none := by
  induction xs with
  | nil =>
    intro m _ _
    exact ⟨rfl, [], by simp [dupGo], fun k _ => rfl⟩
  | cons e rest ih =>
    intro m hnod hm
    obtain ⟨dev, iface⟩ := e
    simp only [dupGo]
    cases hk : dupKeyOf iface with
    | none =>
      have hek : entryKey? (dev, iface) = none := by simp [entryKey?, hk]
      rw [entryKeys_cons_none hek] at hnod hm ⊢
      exact ih m hnod hm
    | some q =>
      obtain ⟨ip, vlan⟩ := q
      dsimp only
      have hek : entryKey? (dev, iface) = some (ip ++ "_" ++ vlan) := by simp [entryKey?, hk]
      rw [entryKeys_cons_some hek] at hnod hm ⊢
      have hknot : (ip ++ "_" ++ vlan) ∉ entryKeys rest := (List.nodup_cons.mp hnod).1
      have hrest : (entryKeys rest).Nodup := (List.nodup_cons.mp hnod).2
      have hmk : m.lookup (ip ++ "_" ++ vlan) = none := hm _ (List.mem_cons_self _ _)
      rw [hmk]
      have hm2 : ∀ k ∈ entryKeys rest,
          (m ++ [(ip ++ "_" ++ vlan, dev)]).lookup k = none := by
        intro k hkmem
        rw [lookup_append_of_none _ (hm k (List.mem_cons_of_mem _ hkmem))]
        have hne : k ≠ ip ++ "_" ++ vlan := fun he => hknot (he ▸ hkmem)
        simp [List.lookup, beq_eq_false_iff_ne.mpr hne]
      obtain ⟨hiss, madd, hmadd, hmaddlk⟩ := ih (m ++ [(ip ++ "_" ++ vlan, dev)]) hrest hm2
      refine ⟨hiss, (ip ++ "_" ++ vlan, dev) :: madd, ?_, ?_⟩
      · rw [hmadd, List.append_assoc]
        rfl
      · intro k hknotin
        have hne : k ≠ ip ++ "_" ++ vlan := fun he => hknotin (he ▸ List.mem_cons_self _ _)
        have hrnot : k ∉ entryKeys rest := fun hmem => hknotin (List.mem_cons_of_mem _ hmem)
        simp only [List.lookup, beq_eq_false_iff_ne.mpr hne]
        exact hmaddlk k hrnot

/-- C9: keyed on `(address, access-vlan)`, exactly two colliding non-DHCP
interfaces (and no other collision in the corpus) yield exactly one
finding naming both devices; when every key is distinct — in particular
when equal addresses sit in different access VLANs — no duplicate finding
is emitted. -/
theorem duplicate_ip_scoped_findings (configs : List (String × ParsedConfig)) :
    ((entryKeys (dupEntries configs)).Nodup → checkDuplicateIps configs = []) ∧
    (∀ (l1 l2 l3 : List (String × Interface)) (e1 e2 : String × Interface)
       (k ip2 v2 : String),
      dupEntries configs = l1 ++ e1 :: (l2 ++ e2 :: l3) →
      entryKey? e1 = some k → entryKey? e2 = some k →
      dupKeyOf e2.2 = some (ip2, v2) →
      e1.1 ≠ e2.1 →
      (entryKeys (l1 ++ l2 ++ l3)).Nodup →
      k ∉ entryKeys (l1 ++ l2 ++ l3) →
      checkDuplicateIps configs = [dupMsg ip2 v2 e1.1 e2.1]) := by
  constructor
  · intro hnod
    unfold checkDuplicateIps
    exact (dupGo_clean (dupEntries configs) [] hnod (fun k _ => rfl)).1
  · intro l1 l2 l3 e1 e2 k ip2 v2 heq hk1 hk2 hdk2 hne hnod hknotin
    obtain ⟨dev1, if1⟩ := e1
    obtain ⟨dev2, if2⟩ := e2
    obtain ⟨ip1, v1, hdk1, hkey1⟩ :
        ∃ ip1 v1, dupKeyOf if1 = some (ip1, v1) ∧ ip1 ++ "_" ++ v1 = k := by
      simp only [entryKey?] at hk1
      cases hdk : dupKeyOf if1 with
      | none => rw [hdk] at hk1; simp at hk1
      | some q =>
        obtain ⟨ip1, v1⟩ := q
        rw [hdk] at hk1
        exact ⟨ip1, v1, rfl, by injection hk1⟩
    have hkey2 : ip2 ++ "_" ++ v2 = k := by
      simp only [entryKey?, hdk2] at hk2
      injection hk2
    -- key bookkeeping: keys of l1, l2, l3 avoid k and each other
    rw [entryKeys_append, entryKeys_append] at hnod hknotin
    have hndAB := (List.nodup_append.mp hnod).1
    have hnd1 : (entryKeys l1).Nodup := (List.nodup_append.mp hndAB).1
    have hnd2 : (entryKeys l2).Nodup := (List.nodup_append.mp hndAB).2.1
    have hnd3 : (entryKeys l3).Nodup := (List.nodup_append.mp hnod).2.1
    have hdisj12 : ∀ x ∈ entryKeys l1, x ∉ entryKeys l2 := by
      intro x hx1 hx2
      exact (List.nodup_append.mp hndAB).2.2 hx1 hx2
    have hdisj13 : ∀ x ∈ entryKeys l1, x ∉ entryKeys l3 := by
      intro x hx1 hx3
      exact (List.nodup_append.mp hnod).2.2 (List.mem_append_left _ hx1) hx3
    have hdisj23 : ∀ x ∈ entryKeys l2, x ∉ entryKeys l3 := by
      intro x hx2 hx3
      exact (List.nodup_append.mp hnod).2.2 (List.mem_append_right _ hx2) hx3
    have hk_l1 : k ∉ entryKeys l1 :=
      fun hx => hknotin (List.mem_append_left _ (List.mem_append_left _ hx))
    have hk_l2 : k ∉ entryKeys l2 :=
      fun hx => hknotin (List.mem_append_left _ (List.mem_append_right _ hx))
    have hk_l3 : k ∉ entryKeys l3 :=
      fun hx => hknotin (List.mem_append_right _ hx)
    unfold checkDuplicateIps
    rw [heq, dupGo_append]
    -- stage 1: the entries before the first colliding one produce nothing
    obtain ⟨hi1, m1, hm1, hm1lk⟩ := dupGo_clean l1 [] hnd1 (fun x _ => rfl)
    rw [hi1, hm1]
    rw [List.nil_append, List.nil_append]
    -- stage 2: the first colliding entry inserts (k, dev1) silently
    simp only [dupGo, hdk1]
    have hm1k : m1.lookup k = none := hm1lk k hk_l1
    rw [hkey1, hm1k]
    dsimp only
    -- stage 3: the entries between the two produce nothing
    rw [dupGo_append]
    have hm2lk : ∀ x ∈ entryKeys l2, (m1 ++ [(k, dev1)]).lookup x = none := by
      intro x hx
      rw [lookup_append_of_none _ (hm1lk x (fun hx1 => hdisj12 x hx1 hx))]
      have hxk : x ≠ k := fun he => hk_l2 (he ▸ hx)
      simp [List.lookup, beq_eq_false_iff_ne.mpr hxk]
    obtain ⟨hi2, m2, hm2, hm2lk2⟩ := dupGo_clean l2 (m1 ++ [(k, dev1)]) hnd2 hm2lk
    rw [hi2, hm2, List.nil_append]
    -- stage 4: the second colliding entry finds (k, dev1) and reports
    simp only [dupGo, hdk2]
    have hfound : ((m1 ++ [(k, dev1)]) ++ m2).lookup k = some dev1 := by
      refine lookup_append_of_some m2 ?_
      rw [lookup_append_of_none _ hm1k]
      simp [List.lookup]
    rw [hkey2, hfound]
    dsimp only
    -- stage 5: the remaining entries produce nothing
    have hm3lk : ∀ x ∈ entryKeys l3, ((m1 ++ [(k, dev1)]) ++ m2).lookup x = none := by
      intro x hx
      rw [lookup_append_of_none, hm2lk2 x (fun hx2 => hdisj23 x hx2 hx)]
      rw [lookup_append_of_none _ (hm1lk x (fun hx1 => hdisj13 x hx1 hx))]
      have hxk : x ≠ k := fun he => hk_l3 (he ▸ hx)
      simp [List.lookup, beq_eq_false_iff_ne.mpr hxk]
    obtain ⟨hi3, m3, hm3, _⟩ := dupGo_clean l3 ((m1 ++ [(k, dev1)]) ++ m2) hnd3 hm3lk
    rw [hi3]

theorem duplicate_ip_scoped_findings_witness :
    checkDuplicateIps c9ConfigsDistinct = [] ∧
    checkDuplicateIps c9ConfigsShared =
      ["Duplicate IP 10.0.0.5 in VLAN 10: devices H1 and H2"] := by
  constructor
  · exact (duplicate_ip_scoped_findings c9ConfigsDistinct).1 (by decide)
  · have h := (duplicate_ip_scoped_findings c9ConfigsShared).2 [] [] []
      ("H1", { name := "FastEthernet0/0", ip_address := some "10.0.0.5",
               subnet_mask := some "255.255.255.0", access_vlan := some 10 })
      ("H2", { name := "FastEthernet0/0", ip_address := some "10.0.0.5",
               subnet_mask := some "255.255.255.0", access_vlan := some 10 })
      "10.0.0.5_10" "10.0.0.5" "10"
      (by decide) (by decide) (by decide) (by decide) (by decide) (by decide) (by decide)
    exact h.trans (by decide)

theorem queues_handleArp (now : Nat) (n : NodeState) (p : Packet) :
    (handleArp now n p).tx_queue = n.tx_queue ∧ (handleArp now n p).rx_queue = n.rx_queue := by
  unfold handleArp
  constructor <;> (repeat' split) <;> rfl

theorem queues_handleOspf (now : Nat) (n : NodeState) (p : Packet) :
    (handleOspf now n p).tx_queue = n.tx_queue ∧ (handleOspf now n p).rx_queue = n.rx_queue := by
  unfold handleOspf
  constructor <;> (repeat' split) <;> rfl

theorem queues_handleBgp (now : Nat) (n : NodeState) (p : Packet) :
    (handleBgp now n p).tx_queue = n.tx_queue ∧ (handleBgp now n p).rx_queue = n.rx_queue := by
  unfold handleBgp
  constructor <;> (repeat' split) <;> rfl

theorem queues_forwardPacket (n : NodeState) (p : Packet) :
    (forwardPacket n p).tx_queue = n.tx_queue ∧ (forwardPacket n p).rx_queue = n.rx_queue := by
  unfold forwardPacket
  cases lookupRoute n.routing_table p.dest_ip with
  | none => exact ⟨rfl, rfl⟩
  | some hop =>
    dsimp only
    constructor <;> (split <;> rfl)

theorem queues_handleData (n : NodeState) (p : Packet) :
    (handleData n p).tx_queue = n.tx_queue ∧ (handleData n p).rx_queue = n.rx_queue := by
  unfold handleData
  split
  · exact ⟨rfl, rfl⟩
  · exact queues_forwardPacket n p

theorem queues_handlePacket (now : Nat) (n : NodeState) (p : Packet) :
    (handlePacket now n p).tx_queue = n.tx_queue ∧
    (handlePacket now n p).rx_queue = n.rx_queue := by
  unfold handlePacket
  dsimp only
  split
  · exact queues_handleArp now _ p
  · split
    · exact queues_handleOspf now _ p
    · split
      · exact queues_handleBgp now _ p
      · split
        · exact queues_handleData _ p
        · exact ⟨rfl, rfl⟩

theorem queues_processPackets (now : Nat) (n : NodeState) :
    (processPackets now n).tx_queue = n.tx_queue ∧ (processPackets now n).rx_queue = [] := by
  unfold processPackets
  refine foldl_pres
    (P := fun m : NodeState => m.tx_queue = n.tx_queue ∧ m.rx_queue = []) _ ?_ _ _ ⟨rfl, rfl⟩
  intro b a hb
  have hq := queues_handlePacket now b a
  exact ⟨hq.1.trans hb.1, hq.2.trans hb.2⟩

theorem queues_sendHellos (topo : List (String × String)) (now : Nat) (n : NodeState) :
    (sendHellos topo now n).tx_queue = n.tx_queue ∧
    (sendHellos topo now n).rx_queue = n.rx_queue := by
  unfold sendHellos
  split
  · refine foldl_pres
      (P := fun m : NodeState => m.tx_queue = n.tx_queue ∧ m.rx_queue = n.rx_queue)
      _ ?_ _ _ ⟨rfl, rfl⟩
    intro b a hb
    exact hb
  · exact ⟨rfl, rfl⟩

theorem queues_periodicTasks (topo : List (String × String)) (now : Nat) (g10 g30 : Bool)
    (n : NodeState) :
    (periodicTasks topo now g10 g30 n).tx_queue = n.tx_queue ∧
    (periodicTasks topo now g10 g30 n).rx_queue = n.rx_queue := by
  unfold periodicTasks
  dsimp only
  repeat' split
  all_goals
    first
      | exact queues_sendHellos topo now n
      | exact ⟨rfl, rfl⟩

theorem nodeInv_agentIteration (topo : List (String × String)) (now : Nat) (g10 g30 : Bool)
    (n : NodeState) (h : NodeInv n) : NodeInv (agentIteration topo now g10 g30 n) := by
  unfold agentIteration
  split
  · exact h
  · have hp := queues_processPackets now n
    have hpt := queues_periodicTasks topo now g10 g30 (processPackets now n)
    constructor
    · show (periodicTasks topo now g10 g30 (processPackets now n)).tx_queue = []
      rw [hpt.1, hp.1]
      exact h.1
    · have hrx :
          (updateStatistics now
            (periodicTasks topo now g10 g30 (processPackets now n))).rx_queue = [] := by
        show (periodicTasks topo now g10 g30 (processPackets now n)).rx_queue = []
        rw [hpt.2, hp.2]
      rw [hrx]
      intro q hq
      cases hq

theorem mem_of_lookup_eq_some {β : Type _} {l : List (String × β)} {k : String} {v : β}
    (h : l.lookup k = some v) : (k, v) ∈ l := by
  induction l with
  | nil => cases h
  | cons p rest ih =>
    obtain ⟨k0, v0⟩ := p
    simp only [List.lookup] at h
    cases hk : (k == k0)
    · rw [hk] at h
      exact List.mem_cons_of_mem _ (ih h)
    · rw [hk] at h
      injection h with hv
      have hkk : k = k0 := eq_of_beq hk
      subst hkk
      subst hv
      exact List.mem_cons_self _ _

theorem simInv_updateNode (s : SimState) (nid : String) (f : NodeState → NodeState)
    (hs : SimInv s) (hf : ∀ n, NodeInv n → NodeInv (f n)) :
    SimInv (updateNode s nid f) := by
  intro p hp
  unfold updateNode at hp
  dsimp only at hp
  rw [List.mem_map] at hp
  obtain ⟨p0, hp0, heq⟩ := hp
  cases hcond : (p0.1 == nid)
  · rw [hcond] at heq
    simp only [Bool.false_eq_true, if_false] at heq
    exact heq ▸ hs p0 hp0
  · rw [hcond] at heq
    simp only [if_true] at heq
    have : p.2 = f p0.2 := by rw [← heq]
    rw [this]
    exact hf _ (hs p0 hp0)

theorem simInv_of_nodes_map {s s2 : SimState} (f : NodeState → NodeState)
    (hnodes : s2.nodes = s.nodes.map (fun p => (p.1, f p.2)))
    (hf : ∀ n, NodeInv n → NodeInv (f n)) (hs : SimInv s) : SimInv s2 := by
  intro p hp
  rw [hnodes, List.mem_map] at hp
  obtain ⟨p0, hp0, rfl⟩ := hp
  exact hf _ (hs p0 hp0)

theorem simInv_drainNodeTx (s : SimState) (nid : String) (hs : SimInv s) :
    SimInv (drainNodeTx s nid) := by
  unfold drainNodeTx
  cases hl : s.nodes.lookup nid with
  | none => exact hs
  | some n =>
    have htx : n.tx_queue = [] := (hs _ (mem_of_lookup_eq_some hl)).1
    dsimp only
    rw [htx]
    dsimp only [List.foldl]
    exact simInv_updateNode s nid _ hs (fun m hm => ⟨rfl, hm.2⟩)

theorem simInv_routeIteration (s : SimState) (hs : SimInv s) : SimInv (routeIteration s) := by
  unfold routeIteration
  split
  · exact hs
  · exact foldl_pres (P := SimInv) _ (fun st nid hst => simInv_drainNodeTx st nid hst) _ s hs

theorem simInv_inject (s : SimState) (a b : String) (now : Nat) (hs : SimInv s) :
    SimInv (injectLinkFailure s a b now) := by
  unfold injectLinkFailure
  split
  · dsimp only
    cases List.lookup a s.nodes with
    | none => exact hs
    | some n1 =>
      refine simInv_updateNode _ a _ hs ?_
      intro m hm
      refine ⟨hm.1, ?_⟩
      intro q hq
      rw [List.mem_append] at hq
      cases hq with
      | inl hmem => exact hm.2 q hmem
      | inr hmem =>
        rw [List.mem_singleton] at hmem
        subst hmem
        rfl
  · exact hs

theorem simInv_restore (s : SimState) (a b : String) (hs : SimInv s) :
    SimInv (restoreLink s a b) := by
  unfold restoreLink
  split
  · exact hs
  · exact hs

theorem simInv_ipc (s : SimState) (cmd : IpcCommand) (hs : SimInv s) :
    SimInv (processIpcCommand s cmd).2 := by
  unfold processIpcCommand
  repeat' split
  all_goals
    first
      | exact hs
      | exact simInv_updateNode _ _ _ hs (fun n h => h)

/-- C2: throughout any simulation run (any interleaving of agent
iterations, delivery-worker passes, lifecycle calls, fault injection and
IPC commands from the freshly initialized engine), every agent's outbound
queue stays empty — `send_packet` only logs and counts — so the delivery
worker never moves an agent-originated packet, and every packet sitting on
any inbound queue is an injected `LINK_FAILURE`. -/
theorem tx_queues_stay_empty (configs : List (String × ParsedConfig)) (macs : String → String)
    (now0 : Nat) (topo : List (String × String)) (s : SimState)
    (h : SimReach (initSim configs macs now0 topo) s) :
    (∀ p ∈ s.nodes, p.2.tx_queue = ([] : List Packet)) ∧
    (∀ p ∈ s.nodes, ∀ q ∈ p.2.rx_queue, q.packet_type = "LINK_FAILURE") := by
  have hinv : SimInv s := by
    induction h with
    | refl =>
      intro p hp
      unfold initSim at hp
      dsimp only at hp
      rw [List.mem_map] at hp
      obtain ⟨p0, _, rfl⟩ := hp
      exact ⟨rfl, fun q hq => by cases hq⟩
    | tail hreach hstep ih =>
      cases hstep with
      | start =>
        exact simInv_of_nodes_map (fun n => { n with running := true }) rfl (fun n hn => hn) ih
      | agent nid now g10 g30 =>
        exact simInv_updateNode _ nid _ ih (nodeInv_agentIteration _ now g10 g30)
      | route hrun => exact simInv_routeIteration _ ih
      | inject a b now => exact simInv_inject _ a b now ih
      | restore a b => exact simInv_restore _ a b ih
      | pauseAll =>
        exact simInv_of_nodes_map (fun n => { n with paused := true }) rfl (fun n hn => hn) ih
      | resumeAll =>
        exact simInv_of_nodes_map (fun n => { n with paused := false }) rfl (fun n hn => hn) ih
      | stop =>
        exact simInv_of_nodes_map (fun n => { n with running := false }) rfl (fun n hn => hn) ih
      | ipc cmd => exact simInv_ipc _ cmd ih
  exact ⟨fun p hp => (hinv p hp).1, fun p hp => (hinv p hp).2⟩

theorem tx_queues_stay_empty_witness :
    (∀ p ∈ c2State.nodes, p.2.tx_queue = ([] : List Packet)) ∧
    (∀ p ∈ c2State.nodes, ∀ q ∈ p.2.rx_queue, q.packet_type = "LINK_FAILURE") :=
  tx_queues_stay_empty
    [("R1", cfgTwoRouterIface "10.0.0.1"), ("R2", cfgTwoRouterIface "10.0.0.2")]
    (fun _ => "02:00:00:00:00:04") 0 [("R1", "R2")] c2State (SimReach.refl _)

/-- C3: the claim says every device's missing OSPF neighbor is reported.
In the source the reporting loop is dedented out of the per-device loop,
so only the last device is checked: with devices `A`, `B` and one
`ospf`-typed edge between them, neither has recorded neighbors, yet only
`B`'s omission is reported — the failure naming `A` and `B` required by
the claim is absent. -/
theorem validate_neighbors_reports_only_last_device :
    validateNeighbors c3Configs c3Edges (triggerOspf c3Edges) =
      some ["OSPF: B failed to form neighbor with A"] ∧
    "OSPF: A failed to form neighbor with B" ∉
      (["OSPF: B failed to form neighbor with A"] : List String) := by
  exact ⟨rfl, by decide⟩

theorem topoHasEdge_append (t : List (String × String)) (a b : String) :
    topoHasEdge (t ++ [(a, b)]) a b = true := by
  unfold topoHasEdge
  rw [List.any_append]
  simp

theorem topoHasEdge_remove (t : List (String × String)) (a b : String) :
    topoHasEdge (topoRemoveEdge t a b) a b = false := by
  unfold topoHasEdge topoRemoveEdge
  rw [Bool.eq_false_iff]
  intro hc
  rw [List.any_eq_true] at hc
  obtain ⟨e, he, hpe⟩ := hc
  rw [List.mem_filter] at he
  exact absurd he.2 (by simp [hpe])

/-- C4 (counterexample): on a topology with no edge between `A` and `B`,
`inject_link_failure(A,B)` is a no-op but `restore_link(A,B)` adds the
edge, so the round trip does not preserve `has_edge`. -/
theorem link_roundtrip_counterexample :
    topoHasEdge c4State.topology "A" "B" = false ∧
    topoHasEdge (restoreLink (injectLinkFailure c4State "A" "B" 0) "A" "B").topology "A" "B"
      = true := by
  exact ⟨rfl, rfl⟩

/-- C4 (amended): after `inject_link_failure(a,b); restore_link(a,b)` the
edge is always present; this equals the prior value of `has_edge` exactly
when the edge existed beforehand, and creates the edge when it did not. -/
theorem link_roundtrip_amended (s : SimState) (a b : String) (now : Nat) :
    topoHasEdge (restoreLink (injectLinkFailure s a b now) a b).topology a b = true := by
  have key : ∀ s2 : SimState, s2.topology = topoRemoveEdge s.topology a b →
      topoHasEdge (restoreLink s2 a b).topology a b = true := by
    intro s2 h2
    unfold restoreLink
    rw [if_neg (by rw [h2, topoHasEdge_remove]; exact Bool.false_ne_true)]
    show topoHasEdge (s2.topology ++ [(a, b)]) a b = true
    rw [h2]
    exact topoHasEdge_append _ a b
  unfold injectLinkFailure
  by_cases h : topoHasEdge s.topology a b = true
  · rw [if_pos h]
    dsimp only
    cases hl : List.lookup a s.nodes with
    | none => exact key _ rfl
    | some n1 => exact key _ rfl
  · rw [if_neg h]
    unfold restoreLink
    rw [if_neg h]
    exact topoHasEdge_append _ a b

/-- C5 (counterexample): the claim is false on the code in two ways.
With an empty routing table and a TTL-1 DATA packet for a non-local
destination, the claim demands `packets_dropped` be incremented, but the
code finds no route and changes nothing (the TTL is only decremented
after a successful lookup).  And the lookup is a seven-character
string-prefix comparison, not longest-prefix match: for destination
`192.168.100.5` the table `[("192.168.1.0/24", "A")]` yields hop `A`
although the destination is not inside `192.168.1.0/24`. -/
theorem data_forwarding_counterexample :
    ¬ c5ClaimProp ∧
    lookupRoute c5Table "192.168.100.5" = some "A" ∧
    lookupRouteLpm c5Table "192.168.100.5" = none := by
  refine ⟨?_, rfl, by decide⟩
  intro h
  have h2 := (h c5Node c5Packet rfl (by decide)).2 (by decide)
  exact absurd h2 (by decide)

/-- C5 (amended): for a DATA packet whose destination is not local, the
agent first looks up a next hop by first-match seven-character
string-prefix comparison against the routing table; only if a hop is
found is the TTL decremented, the packet forwarded while it stays
positive and `packets_dropped` bumped otherwise; with no matching route
nothing changes. -/
theorem data_forwarding_amended (n : NodeState) (p : Packet)
    (h : ¬ p.dest_ip ∈ n.ip_addresses) :
    handleData n p =
      match lookupRoute n.routing_table p.dest_ip with
      | none => n
      | some hop =>
        if p.ttl - 1 > 0 then sendPacket n { p with ttl := p.ttl - 1 } hop
        else { n with statistics :=
                { n.statistics with packets_dropped := n.statistics.packets_dropped + 1 } } := by
  have hc : n.ip_addresses.contains p.dest_ip = false := by
    cases hcc : n.ip_addresses.contains p.dest_ip
    · rfl
    · exact absurd (List.mem_of_elem_eq_true hcc) h
  unfold handleData
  rw [hc]
  simp only [Bool.false_eq_true, if_false]
  unfold forwardPacket
  cases lookupRoute n.routing_table p.dest_ip with
  | none => rfl
  | some hop => rfl

theorem data_forwarding_amended_witness :
    ¬ ("10.0.0.2" : String) ∈ c5Node.ip_addresses ∧
    handleData c5Node c5Packet = c5Node := by
  refine ⟨by decide, ?_⟩
  have h := data_forwarding_amended c5Node c5Packet (by decide)
  rw [h]
  rfl

theorem interface_normalization_amended_witness :
    interfaceTypes.find?
        (fun q => startsWithL (lowerString (trimPy "gigabitethernet0/0")) q.1) =
      some ("gigabitethernet", "GigabitEthernet") ∧
    normalizeInterfaceName "gigabitethernet0/0" = "GigabitEthernet/0" := by
  refine ⟨by rfl, ?_⟩
  rw [interface_normalization_amended "gigabitethernet0/0" "gigabitethernet"
    "GigabitEthernet" (by rfl)]
  rfl

end NetSim
